/-
Verification of the trade-mvp document risk engine.

Shallow embedding of the core of the repository:
  * `app/scoring.py`  — severity point table, `score_issues`, `risk_band`
  * `app/rules.py`    — `pct_diff`, `hs_valid`, `run_rules`
  * `app/extractor.py`— text normalisation, `get_document_text`,
                        `guess_incoterm`, `guess_currency`, `extract_fields`
  * `app/main.py`     — `analyze_documents` (route, score, band, issues)

Python floats are modelled by ℚ (all numerals appearing in the claims are
exactly representable); Python `None` by `Option`; Python dicts with a fixed
key schema by structures whose absent keys are `none` fields.  The `re.search`
calls whose capture groups feed identifier/number fields are abstracted by an
oracle (`SearchOracle`): theorems quantify over every oracle, so they hold for
every behaviour of the regex engine.  Word-boundary scans (`\bFOB\b` etc.) are
modelled concretely by `containsWord`.  Python's `\d` is modelled as an ASCII
decimal digit.
-/
import Mathlib

namespace TradeMVP

/-! ## `app/scoring.py` -/

/-- Severity literal of `schemas.Issue`. -/
inductive Severity
  | critical
  | high
  | medium
  | low
  deriving DecidableEq, Repr

/-- `schemas.Issue` (the `evidence` dict, a heterogeneous snapshot that no
claim inspects, is omitted). -/
structure Issue where
  severity : Severity
  code : String
  title : String
  explanation : String
  recommendation : String
  deriving DecidableEq, Repr

/-- `scoring.POINTS`. -/
def POINTS : Severity → ℤ
  | .critical => 30
  | .high => 15
  | .medium => 5
  | .low => 1

/-- `scoring.score_issues`: `min(100, sum(POINTS[i.severity] for i in issues))`. -/
def score_issues (issues : List Issue) : ℤ :=
  min 100 (issues.map fun i => POINTS i.severity).sum

/-- `scoring.risk_band`. -/
def risk_band (score : ℤ) : String :=
  if score ≤ 20 then "low"
  else if score ≤ 50 then "medium"
  else "high"

/-! ## Document records (`app/schemas.py` shapes as built by `app/extractor.py`)

The extractor returns plain dicts with a fixed key schema; a key that is
absent or set to `None` is modelled by a `none` field.  Numeric fields hold
the value that `rules._safe_float` recovers from them (`none` when it would
return `None`); Python floats are modelled by ℚ. -/

structure Item where
  hs_code : Option String := none
  deriving DecidableEq, Repr

structure Cargo where
  total_quantity : Option ℚ := none
  total_packages : Option ℤ := none
  total_gross_weight : Option ℚ := none
  total_net_weight : Option ℚ := none
  items : List Item := []
  deriving DecidableEq, Repr

structure CommercialTerms where
  country_of_origin : Option String := none
  coo_mention : Option String := none
  incoterm : Option String := none
  invoice_number : Option String := none
  invoice_value : Option ℚ := none
  currency : Option String := none
  packing_list_number : Option String := none
  freight_terms : Option String := none
  deriving DecidableEq, Repr

/-- Party name fields; `none` models the empty party dict `{}`. -/
structure Parties where
  exporter : Option String := none
  importer : Option String := none
  shipper : Option String := none
  consignee : Option String := none
  deriving DecidableEq, Repr

structure Transport where
  bl_number : Option String := none
  mode : Option String := none
  port_of_loading : Option String := none
  port_of_discharge : Option String := none
  deriving DecidableEq, Repr

structure Doc where
  doc_type : String
  parties : Parties := {}
  commercial_terms : CommercialTerms := {}
  cargo : Cargo := {}
  transport : Transport := {}
  deriving DecidableEq, Repr

/-- Python truthiness of an optional string: `None` and `""` are falsy. -/
def truthy : Option String → Bool
  | none => false
  | some s => s ≠ ""

/-! ## `app/rules.py` -/

/-- `rules._pct_diff`: `abs(a-b) / max(abs(a), abs(b), 1e-9) * 100.0`. -/
def pct_diff (a b : ℚ) : ℚ :=
  |a - b| / max |a| (max |b| (1 / 1000000000)) * 100

/-- Python `str.strip()` (both-ends whitespace strip) on a char list. -/
def pyStrip (s : List Char) : List Char :=
  ((s.dropWhile Char.isWhitespace).reverse.dropWhile Char.isWhitespace).reverse

/-- Python `str.replace(".", "")`: drop every period. -/
def removeDots (s : List Char) : List Char :=
  s.filter fun c => c ≠ '.'

/-- `rules._hs_valid`: falsy inputs are invalid; otherwise strip whitespace,
drop periods, and require a full match of `\d{6,10}` (`\d` modelled as an
ASCII decimal digit). -/
def hs_valid (hs : Option String) : Bool :=
  match hs with
  | none => false
  | some s =>
      if s = "" then false
      else
        let t := removeDots (pyStrip s.data)
        decide (6 ≤ t.length) && decide (t.length ≤ 10) && t.all Char.isDigit

/-- Issue appended by rule 0 of `run_rules` (COO missing). -/
def cooIssue : Issue :=
  { severity := .critical
    code := "COO_MISSING"
    title := "Certificate of Origin missing / not referenced"
    explanation := "For India→UAE shipments, COO is commonly required to claim CEPA duty benefits and avoid customs queries."
    recommendation := "Include a valid Certificate of Origin (or reference it clearly) and ensure COO details match invoice and packing list." }

/-- Issue appended by rule 1 of `run_rules` (incoterm missing). -/
def incotermIssue : Issue :=
  { severity := .critical
    code := "INCOTERM_MISSING"
    title := "Incoterm missing on commercial invoice"
    explanation := "Incoterms affect valuation and responsibility; missing Incoterms often trigger customs queries."
    recommendation := "Add Incoterm (e.g., FOB/CIF/EXW) on the invoice and ensure it matches the booking." }

/-- Issue appended by rule 2 of `run_rules` (quantity mismatch). -/
def qtyIssue : Issue :=
  { severity := .critical
    code := "QTY_MISMATCH_INV_PACK"
    title := "Total quantity mismatch between invoice and packing list"
    explanation := "Customs compares quantities across documents; mismatches frequently cause holds or amendments."
    recommendation := "Align quantities on invoice and packing list. If partial shipment, reflect that consistently." }

/-- Issue appended by rule 3 of `run_rules` (gross-weight mismatch). -/
def gwIssue : Issue :=
  { severity := .critical
    code := "GW_MISMATCH_PACK_BL"
    title := "Gross weight mismatch between packing list and Bill of Lading"
    explanation := "Carrier BL weight should align with packing weights; large deltas trigger inspection or BL amendment."
    recommendation := "Confirm weighment and amend BL or packing list before filing." }

/-- Issue appended by rule 4 of `run_rules` (all HS codes missing/invalid). -/
def hsIssue : Issue :=
  { severity := .high
    code := "HS_ALL_MISSING_OR_INVALID"
    title := "HS codes missing or invalid for invoice items"
    explanation := "HS codes drive duty, restrictions, and clearance logic. Missing/invalid HS codes often cause queries."
    recommendation := "Add correct HS codes (6–10 digits) aligned to product descriptions." }

/-- Issue appended by the `else` arm of rule 4 of `run_rules` (no items). -/
def noItemsIssue : Issue :=
  { severity := .high
    code := "NO_ITEMS_EXTRACTED"
    title := "No line items extracted from invoice"
    explanation := "Without item lines, HS/quantity/value checks cannot run reliably."
    recommendation := "Upload a clearer invoice (or we will improve OCR/extraction)." }

/-- `rules.run_rules`, appending the five conditional segments in source
order.  Optional numeric fields already carry the `_safe_float` result. -/
def run_rules (inv pack bl : Doc) : List Issue :=
  let ct := inv.commercial_terms
  let issues0 : List Issue :=
    if !truthy ct.country_of_origin && !truthy ct.coo_mention then [cooIssue] else []
  let issues1 : List Issue :=
    if !truthy inv.commercial_terms.incoterm then [incotermIssue] else []
  let issues2 : List Issue :=
    match inv.cargo.total_quantity, pack.cargo.total_quantity with
    | some invQty, some packQty => if invQty ≠ packQty then [qtyIssue] else []
    | _, _ => []
  let issues3 : List Issue :=
    match pack.cargo.total_gross_weight, bl.cargo.total_gross_weight with
    | some packGw, some blGw => if pct_diff packGw blGw > 2 then [gwIssue] else []
    | _, _ => []
  let items := inv.cargo.items
  let issues4 : List Issue :=
    if items ≠ [] then
      if items.countP (fun it => !hs_valid it.hs_code) = items.length then [hsIssue]
      else []
    else [noItemsIssue]
  issues0 ++ issues1 ++ issues2 ++ issues3 ++ issues4

/-- Convenience issue used in concrete scoring examples. -/
def bareIssue (s : Severity) : Issue :=
  { severity := s, code := "", title := "", explanation := "", recommendation := "" }

/-- The HS-validity predicate exactly as the claim words it: valid iff,
after stripping periods (and nothing else), the value is 6–10 decimal
digits; null invalid. -/
def hsValidClaimed (hs : Option String) : Bool :=
  match hs with
  | none => false
  | some s =>
      let t := removeDots s.data
      decide (6 ≤ t.length) && decide (t.length ≤ 10) && t.all Char.isDigit

/-- The HS-validity predicate as amended: valid iff, after stripping
leading/trailing whitespace and then periods, the value is 6–10 decimal
digits; null invalid. -/
def hsValidAmended (hs : Option String) : Bool :=
  match hs with
  | none => false
  | some s =>
      let t := removeDots (pyStrip s.data)
      decide (6 ≤ t.length) && decide (t.length ≤ 10) && t.all Char.isDigit

/-! ## `app/extractor.py`

Pure string helpers are embedded directly.  The `re.search` calls whose
capture group feeds an identifier/number field are abstracted by a
`SearchOracle` (pattern string ↦ text ↦ optional first capture group);
theorems quantify over every oracle.  Word-boundary scans
(`re.search(r"\bX\b", text, IGNORECASE)`) are embedded concretely by
`containsWord`, with `\w` modelled as ASCII alphanumeric or underscore. -/

/-- `\w` (word character), ASCII model. -/
def wordChar (c : Char) : Bool := c.isAlphanum || c = '_'

/-- Case-insensitive prefix match; returns the remainder on success. -/
def matchesLower : List Char → List Char → Option (List Char)
  | [], s => some s
  | _ :: _, [] => none
  | c :: w, d :: s => if c.toLower = d.toLower then matchesLower w s else none

/-- `\b` holds before the needle at this position. -/
def boundaryOk : Option Char → Bool
  | none => true
  | some p => !wordChar p

/-- The needle matches here, with a word boundary after it. -/
def matchHere (w s : List Char) : Bool :=
  match matchesLower w s with
  | some [] => true
  | some (r :: _) => !wordChar r
  | none => false

def containsWordAux (w : List Char) : Option Char → List Char → Bool
  | prev, [] => boundaryOk prev && matchHere w []
  | prev, c :: s => (boundaryOk prev && matchHere w (c :: s)) || containsWordAux w (some c) s

/-- `re.search(rf"\b{w}\b", text, IGNORECASE) is not None` for a needle
starting and ending in word characters. -/
def containsWord (w text : String) : Bool :=
  containsWordAux w.data none text.data

/-- Python `str.strip()` on a `String`. -/
def pyStripS (s : String) : String := ⟨pyStrip s.data⟩

/-- Python `str.lower()` (ASCII model). -/
def pyLower (s : String) : String := ⟨s.data.map Char.toLower⟩

/-- Python `str.upper()` (ASCII model). -/
def pyUpper (s : String) : String := ⟨s.data.map Char.toUpper⟩

/-- Abstraction of `re.search(pattern, text, IGNORECASE | MULTILINE)`,
returning the first capture group of the first match, if any. -/
structure SearchOracle where
  search : String → String → Option String

/-- `extractor._find_first`: first pattern that matches wins; a matched but
blank group returns `None` immediately (no fallthrough). -/
def find_first (ora : SearchOracle) : List String → String → Option String
  | [], _ => none
  | p :: rest, text =>
    match ora.search p text with
    | some g =>
        let val := pyStripS g
        if val = "" then none else some val
    | none => find_first ora rest text

/-- Characters kept by `_clean_id`'s trailing-punctuation strip: `[\w\-\/]`. -/
def idChar (c : Char) : Bool := wordChar c || c = '-' || c = '/'

/-- `extractor._clean_id`. -/
def clean_id : Option String → Option String
  | none => none
  | some s =>
    if s = "" then none
    else
      let t := ((pyStrip s.data).reverse.dropWhile fun c => !idChar c).reverse
      if t = [] then none else some ⟨t⟩

/-- Characters kept by `_to_float`'s first substitution: `[\d\.,\-+]`. -/
def floatChar (c : Char) : Bool := c.isDigit || c = '.' || c = ',' || c = '-' || c = '+'

/-- Decimal value of a digit list. -/
def digitsVal (l : List Char) : ℕ := l.foldl (fun a c => 10 * a + (c.toNat - 48)) 0

/-- Python `float(s)` on a string containing only digits, `.`, `-`, `+`
(commas already removed): optional sign, then digits with at most one dot
and at least one digit overall; anything else fails. -/
def parsePyFloat (l : List Char) : Option ℚ :=
  let signRest : ℚ × List Char :=
    match l with
    | '+' :: r => (1, r)
    | '-' :: r => (-1, r)
    | r => (1, r)
  let intPart := signRest.2.takeWhile Char.isDigit
  match signRest.2.dropWhile Char.isDigit with
  | [] => if intPart.isEmpty then none else some (signRest.1 * (digitsVal intPart : ℚ))
  | '.' :: frac =>
      if frac.all Char.isDigit && (!intPart.isEmpty || !frac.isEmpty) then
        some (signRest.1 *
          ((digitsVal intPart : ℚ) + (digitsVal frac : ℚ) / (10 ^ frac.length)))
      else none
  | _ => none

/-- `extractor._to_float`.  (Both arms of the source's comma heuristic
delete every comma, so a single deletion is performed here.) -/
def to_float : Option String → Option ℚ
  | none => none
  | some s =>
    if s = "" then none
    else
      let t := (pyStrip s.data).filter floatChar
      if t = [] then none
      else parsePyFloat (t.filter fun c => c ≠ ',')

/-- `extractor._to_int`. -/
def to_int : Option String → Option ℤ
  | none => none
  | some s =>
    if s = "" then none
    else
      let t := (pyStrip s.data).filter Char.isDigit
      if t = [] then none else some (digitsVal t : ℤ)

/-- Scan loop of `_guess_currency`: first listed code occurring as a
standalone word. -/
def currencyScanAux (text : String) : List String → Option String
  | [] => none
  | c :: rest => if containsWord c text then some c else currencyScanAux text rest

def currencyCodes : List String := ["USD", "AED", "INR", "EUR", "GBP", "SAR", "OMR", "QAR"]

def currencyLabelPat : String := "\\bCurrency\\s*[:#]?\\s*([A-Z]\x7b3\x7d)\\b"

/-- `extractor._guess_currency`. -/
def guess_currency (ora : SearchOracle) (text : String) : Option String :=
  match find_first ora [currencyLabelPat] text with
  | some cur => some (pyUpper cur)
  | none => currencyScanAux text currencyCodes

/-- The incoterm codes scanned by `_guess_incoterm` — ten codes; the
standard eleven-code set additionally contains `FAS`. -/
def incos : List String :=
  ["EXW", "FCA", "CPT", "CIP", "DAP", "DPU", "DDP", "FOB", "CFR", "CIF"]

/-- The eleven standard Incoterms codes, as the claim counts them. -/
def elevenStandardIncoterms : List String :=
  ["EXW", "FCA", "CPT", "CIP", "DAP", "DPU", "DDP", "FAS", "FOB", "CFR", "CIF"]

def guessIncotermAux (text : String) : List String → Option String
  | [] => none
  | t :: rest => if containsWord t text then some t else guessIncotermAux text rest

/-- `extractor._guess_incoterm`. -/
def guess_incoterm (text : String) : Option String :=
  guessIncotermAux text incos

/-- `extractor._extract_weight_value` for a given label (direct `re.search`
on `label\s*[:\-]?\s*([\d\.,]+)`, then `_to_float` of the group). -/
def extract_weight_value (ora : SearchOracle) (text label : String) : Option ℚ :=
  match ora.search (label ++ "\\s*[:\\-]?\\s*([\\d\\.,]+)") text with
  | none => none
  | some g => to_float (some g)

def qtyPats : List String :=
  ["\\bTotal\\s+Quantity\\s*[:\\-]?\\s*([\\d,]+)\\b",
   "\\bQuantity\\s*[:\\-]?\\s*([\\d,]+)\\b",
   "\\bQty\\s*[:\\-]?\\s*([\\d,]+)\\b"]

/-- `extractor._extract_qty_value`. -/
def extract_qty_value (ora : SearchOracle) (text : String) : Option ℤ :=
  to_int (find_first ora qtyPats text)

def packagesPats : List String :=
  ["\\bNo\\.?\\s*of\\s*Cartons\\s*[:\\-]?\\s*([\\d,]+)\\b",
   "\\bNo\\.?\\s*of\\s*Packages\\s*[:\\-]?\\s*([\\d,]+)\\b",
   "\\bCartons\\s*[:\\-]?\\s*([\\d,]+)\\b",
   "\\bPackages\\s*[:\\-]?\\s*([\\d,]+)\\b"]

/-- `extractor._extract_packages`. -/
def extract_packages (ora : SearchOracle) (text : String) : Option ℤ :=
  to_int (find_first ora packagesPats text)

/-- Label pattern of `_extract_party`. -/
def partyPat (lab : String) : String := "\\b" ++ lab ++ "\\s*[:\\-]\\s*(.+)"

/-- `extractor._extract_party`: label-based, stop at newline; a matched but
blank value returns `None` immediately. -/
def extract_party (ora : SearchOracle) (text : String) : List String → Option String
  | [] => none
  | lab :: rest =>
    match ora.search (partyPat lab) text with
    | some g =>
        let v := pyStripS ⟨(pyStrip g.data).takeWhile fun c => c ≠ '\n'⟩
        if v = "" then none else some v
    | none => extract_party ora text rest

def invoiceNoPats : List String :=
  ["\\bInvoice\\s*(?:No|Number)\\s*[:#\\-]?\\s*([A-Z0-9][A-Z0-9\\-\\/]+)\\b",
   "\\bInv\\s*(?:No|Number)\\s*[:#\\-]?\\s*([A-Z0-9][A-Z0-9\\-\\/]+)\\b"]

def totalAmountPats : List String :=
  ["\\bTotal\\s*Amount\\s*[:\\-]?\\s*(?:[A-Z]\x7b3\x7d\\s*)?([\\d,]+\\.\\d+|[\\d,]+)\\b",
   "\\bGrand\\s*Total\\s*[:\\-]?\\s*(?:[A-Z]\x7b3\x7d\\s*)?([\\d,]+\\.\\d+|[\\d,]+)\\b",
   "\\bTotal\\s*[:\\-]?\\s*(?:[A-Z]\x7b3\x7d\\s*)?([\\d,]+\\.\\d+|[\\d,]+)\\b"]

def packingListNoPats : List String :=
  ["\\bPacking\\s*List\\s*(?:No|Number)\\s*[:#\\-]?\\s*([A-Z0-9][A-Z0-9\\-\\/]+)\\b",
   "\\bP\\/L\\s*(?:No|Number)\\s*[:#\\-]?\\s*([A-Z0-9][A-Z0-9\\-\\/]+)\\b",
   "\\bPL\\s*(?:No|Number)\\s*[:#\\-]?\\s*([A-Z0-9][A-Z0-9\\-\\/]+)\\b"]

def blNoPats : List String :=
  ["\\bB\\/L\\s*(?:No|Number)\\s*[:#\\-]?\\s*([A-Z0-9][A-Z0-9\\-\\/]+)\\b",
   "\\bBL\\s*(?:No|Number)\\s*[:#\\-]?\\s*([A-Z0-9][A-Z0-9\\-\\/]+)\\b",
   "\\bBill\\s*of\\s*Lading\\s*(?:No|Number)\\s*[:#\\-]?\\s*([A-Z0-9][A-Z0-9\\-\\/]+)\\b"]

def freightPats : List String :=
  ["\\bFreight\\s*[:\\-]?\\s*(Prepaid|Collect)\\b",
   "\\bFreight\\s*Terms\\s*[:\\-]?\\s*([A-Za-z ]+)\\b"]

def polPat : String := "\\bPort\\s*of\\s*Loading\\s*[:\\-]?\\s*(.+)"
def podPat : String := "\\bPort\\s*of\\s*Discharge\\s*[:\\-]?\\s*(.+)"

/-- Cut at the first newline and strip, as applied to ports. -/
def firstLine (s : String) : String :=
  pyStripS ⟨s.data.takeWhile fun c => c ≠ '\n'⟩

/-- `extractor.extract_fields`.  The invoice/packing-list/bill-of-lading
record shapes follow the source dict literals; the quantity fields store
the `_safe_float` view of the extracted integers. -/
def extract_fields (ora : SearchOracle) (docType text : String) : Doc :=
  let doc_type := pyLower docType
  let incoterm := guess_incoterm text
  if doc_type = "invoice" then
    let invoice_no := clean_id (find_first ora invoiceNoPats text)
    let currency := guess_currency ora text
    let total_amount_s := find_first ora totalAmountPats text
    let qty := extract_qty_value ora text
    let exporter := extract_party ora text ["Exporter", "Seller", "Shipper"]
    let importer := extract_party ora text ["Importer", "Buyer", "Consignee"]
    { doc_type := "invoice"
      parties := { exporter := exporter, importer := importer }
      commercial_terms :=
        { invoice_number := invoice_no
          incoterm := incoterm
          invoice_value := to_float total_amount_s
          currency := currency }
      cargo := { total_quantity := qty.map fun n => (n : ℚ), items := [] }
      transport := {} }
  else if doc_type = "packing_list" then
    let pl_no := clean_id (find_first ora packingListNoPats text)
    let qty := extract_qty_value ora text
    let cartons := extract_packages ora text
    let gross := extract_weight_value ora text "Gross\\s*Weight"
    let net := extract_weight_value ora text "Net\\s*Weight"
    let exporter := extract_party ora text ["Exporter", "Seller", "Shipper"]
    let importer := extract_party ora text ["Importer", "Buyer", "Consignee"]
    { doc_type := "packing_list"
      parties := { exporter := exporter, importer := importer }
      commercial_terms := { packing_list_number := pl_no }
      cargo :=
        { total_quantity := qty.map fun n => (n : ℚ)
          total_packages := cartons
          total_gross_weight := gross
          total_net_weight := net
          items := [] }
      transport := {} }
  else
    let bl_no := clean_id (find_first ora blNoPats text)
    let packages := extract_packages ora text
    let gross := extract_weight_value ora text "Gross\\s*Weight"
    let freight_terms :=
      match find_first ora freightPats text with
      | some f => some (pyStripS f)
      | none => none
    let pol := (find_first ora [polPat] text).map firstLine
    let pod := (find_first ora [podPat] text).map firstLine
    let shipper := extract_party ora text ["Shipper", "Exporter"]
    let consignee := extract_party ora text ["Consignee", "Importer"]
    let mode :=
      if containsWord "Vessel" text || containsWord "Port" text
          || containsWord "Bill of Lading" text then
        some "SEA"
      else none
    { doc_type := "bill_of_lading"
      parties := { shipper := shipper, consignee := consignee }
      commercial_terms := { freight_terms := freight_terms }
      cargo := { total_packages := packages, total_gross_weight := gross, items := [] }
      transport :=
        { bl_number := bl_no
          mode := mode
          port_of_loading := pol
          port_of_discharge := pod } }

/-! ## Text acquisition (`get_document_text` and `_normalize_text`)

`extract_pdf_text` (the pypdf call) and `ocr_pdf` (the OCR call) are
external; they are abstracted as the already-decoded native text and an
optional OCR text (`none` models an unavailable backend or a raised and
swallowed OCR exception). -/

/-- Collapse runs of spaces/tabs to a single space (`re.sub(r"[ \t]+", " ")`);
the flag records whether the previous character was in such a run. -/
def collapseSpacesAux : Bool → List Char → List Char
  | _, [] => []
  | prev, c :: cs =>
    if c = ' ' ∨ c = '\t' then
      if prev then collapseSpacesAux true cs else ' ' :: collapseSpacesAux true cs
    else c :: collapseSpacesAux false cs

/-- Collapse runs of 3+ newlines to exactly two (`re.sub(r"\n{3,}", "\n\n")`);
the counter records the current newline-run length. -/
def collapseNewlinesAux : ℕ → List Char → List Char
  | _, [] => []
  | run, c :: cs =>
    if c = '\n' then
      if run < 2 then '\n' :: collapseNewlinesAux (run + 1) cs
      else collapseNewlinesAux (run + 1) cs
    else c :: collapseNewlinesAux 0 cs

/-- `extractor._normalize_text`: non-breaking spaces to spaces, collapse
horizontal whitespace runs, collapse 3+ newline runs, strip. -/
def normalize_text (s : String) : String :=
  ⟨pyStrip (collapseNewlinesAux 0 (collapseSpacesAux false
    (s.data.map fun c => if c = '\u00A0' then ' ' else c)))⟩

/-- `extractor.get_document_text` over the abstracted native/OCR texts:
returns `(text, method)`. -/
def get_document_text (pdfText : String) (ocrAvailable : Bool)
    (ocrText : Option String) : String × String :=
  let text := normalize_text pdfText
  let ocrResult : Option (String × String) :=
    if text.length < 350 ∧ ocrAvailable = true then
      match ocrText with
      | some o =>
          let o2 := normalize_text o
          if o2.length > text.length then some (o2, "ocr") else none
      | none => none
    else none
  match ocrResult with
  | some r => r
  | none => if text ≠ "" then (text, "pdf_text") else ("", "empty")

/-! ## `app/main.py` (`analyze_documents`) -/

/-- The `result` dict built by `main.analyze_documents` (the diagnostic
`debug` block and the `readiness` overlay, which no claim touches, are
omitted). -/
structure Report where
  route : String × String
  risk_score : ℤ
  risk_band : String
  issues : List Issue
  extracted_summary : Doc × Doc × Doc
  deriving DecidableEq, Repr

/-- `main.analyze_documents`, parameterised over the regex oracle and over
the three document texts produced by text acquisition. -/
def analyze_documents (ora : SearchOracle)
    (invoiceText packingText blText : String) : Report :=
  let inv := extract_fields ora "invoice" invoiceText
  let pack := extract_fields ora "packing_list" packingText
  let bl := extract_fields ora "bill_of_lading" blText
  let issues := run_rules inv pack bl
  let score := score_issues issues
  { route := ("IN", "AE")
    risk_score := score
    risk_band := risk_band score
    issues := issues
    extracted_summary := (inv, pack, bl) }

/-- Oracle on which no regex pattern ever matches. -/
def noMatchOracle : SearchOracle := ⟨fun _ _ => none⟩

theorem POINTS_nonneg (s : Severity) : 0 ≤ POINTS s := by
  cases s <;> simp [POINTS]

theorem points_sum_nonneg (issues : List Issue) :
    0 ≤ (issues.map fun i => POINTS i.severity).sum := by
  induction issues with
  | nil => simp
  | cons i rest ih =>
      simp only [List.map_cons, List.sum_cons]
      have := POINTS_nonneg i.severity
      omega

/-- **C1.** The scorer returns `min 100` of the per-severity point sum
(critical = 30, high = 15, medium = 5, low = 1), an integer in `[0, 100]`;
the band is `"low"` iff score ≤ 20, `"medium"` iff 20 < score ≤ 50 and
`"high"` iff score > 50; `[critical, high]` scores 45 with band `"medium"`,
and three criticals score 90 with band `"high"`. -/
theorem scoring_points_clamp_and_bands :
    (∀ issues : List Issue,
      score_issues issues =
        min 100 (issues.map fun i =>
          match i.severity with
          | .critical => (30 : ℤ)
          | .high => 15
          | .medium => 5
          | .low => 1).sum
      ∧ 0 ≤ score_issues issues ∧ score_issues issues ≤ 100)
    ∧ (∀ s : ℤ,
        (risk_band s = "low" ↔ s ≤ 20)
        ∧ (risk_band s = "medium" ↔ 20 < s ∧ s ≤ 50)
        ∧ (risk_band s = "high" ↔ 50 < s))
    ∧ score_issues [bareIssue .critical, bareIssue .high] = 45
    ∧ risk_band (score_issues [bareIssue .critical, bareIssue .high]) = "medium"
    ∧ score_issues [bareIssue .critical, bareIssue .critical, bareIssue .critical] = 90
    ∧ risk_band (score_issues
        [bareIssue .critical, bareIssue .critical, bareIssue .critical]) = "high" := by
  refine ⟨fun issues => ⟨?_, ?_, ?_⟩, fun s => ⟨?_, ?_, ?_⟩, ?_, ?_, ?_, ?_⟩
  · have hfun : ∀ i : Issue, POINTS i.severity =
        (match i.severity with
          | .critical => (30 : ℤ)
          | .high => 15
          | .medium => 5
          | .low => 1) := by
      intro i; cases i.severity <;> rfl
    have hmap : (issues.map fun i => POINTS i.severity) =
        issues.map (fun i =>
          match i.severity with
          | .critical => (30 : ℤ)
          | .high => 15
          | .medium => 5
          | .low => 1) :=
      List.map_congr_left fun i _ => hfun i
    simp only [score_issues, hmap]
  · have := points_sum_nonneg issues
    simp only [score_issues]
    omega
  · simp only [score_issues]
    omega
  · constructor
    · intro h
      by_contra hs
      push_neg at hs
      simp only [risk_band, if_neg (by omega : ¬ s ≤ 20)] at h
      split at h <;> simp_all
    · intro h; simp [risk_band, h]
  · constructor
    · intro h
      by_contra hs
      simp only [risk_band] at h
      rcases Classical.em (s ≤ 20) with h20 | h20
      · rw [if_pos h20] at h; simp_all
      · rw [if_neg h20] at h
        rcases Classical.em (s ≤ 50) with h50 | h50
        · exact hs ⟨by omega, h50⟩
        · rw [if_neg h50] at h; simp_all
    · rintro ⟨h1, h2⟩
      simp [risk_band, h2, (show ¬ s ≤ 20 by omega)]
  · constructor
    · intro h
      by_contra hs
      push_neg at hs
      simp only [risk_band] at h
      rcases Classical.em (s ≤ 20) with h20 | h20
      · rw [if_pos h20] at h; simp_all
      · rw [if_neg h20, if_pos (show s ≤ 50 by omega)] at h; simp_all
    · intro h
      simp [risk_band, (show ¬ s ≤ 20 by omega), (show ¬ s ≤ 50 by omega)]
  · rfl
  · rfl
  · rfl
  · rfl

theorem countP_if_single (p : Issue → Bool) (c : Prop) [Decidable c] (i : Issue) :
    List.countP p (if c then [i] else []) = if c then (if p i then 1 else 0) else 0 := by
  split <;> simp [List.countP_cons]

theorem countP_if_nested (p : Issue → Bool) (c d : Prop) [Decidable c] [Decidable d]
    (i j : Issue) :
    List.countP p (if c then (if d then [i] else []) else [j]) =
      if c then (if d then (if p i then 1 else 0) else 0) else (if p j then 1 else 0) := by
  split
  · exact countP_if_single p d i
  · simp [List.countP_cons]

/-- Occurrence count of issues satisfying `p` in a `run_rules` output,
decomposed rule by rule. -/
theorem countP_run_rules (p : Issue → Bool) (inv pack bl : Doc) :
    (run_rules inv pack bl).countP p =
      (if !truthy inv.commercial_terms.country_of_origin
          && !truthy inv.commercial_terms.coo_mention then
        (if p cooIssue then 1 else 0) else 0)
      + (if !truthy inv.commercial_terms.incoterm then
          (if p incotermIssue then 1 else 0) else 0)
      + (match inv.cargo.total_quantity, pack.cargo.total_quantity with
          | some invQty, some packQty =>
              if invQty ≠ packQty then (if p qtyIssue then 1 else 0) else 0
          | _, _ => 0)
      + (match pack.cargo.total_gross_weight, bl.cargo.total_gross_weight with
          | some packGw, some blGw =>
              if pct_diff packGw blGw > 2 then (if p gwIssue then 1 else 0) else 0
          | _, _ => 0)
      + (if inv.cargo.items ≠ [] then
          (if inv.cargo.items.countP (fun it => !hs_valid it.hs_code) =
              inv.cargo.items.length then
            (if p hsIssue then 1 else 0) else 0)
        else (if p noItemsIssue then 1 else 0)) := by
  rcases hq1 : inv.cargo.total_quantity with _ | a <;>
  rcases hq2 : pack.cargo.total_quantity with _ | b <;>
  rcases hg1 : pack.cargo.total_gross_weight with _ | g1 <;>
  rcases hg2 : bl.cargo.total_gross_weight with _ | g2 <;>
  simp only [run_rules, hq1, hq2, hg1, hg2, List.countP_append, List.countP_nil,
    countP_if_single, countP_if_nested]

/-- Every issue emitted by `run_rules` satisfies any predicate that holds of
the six issue templates. -/
theorem all_run_rules (p : Issue → Bool) (inv pack bl : Doc)
    (h0 : p cooIssue = true) (h1 : p incotermIssue = true) (h2 : p qtyIssue = true)
    (h3 : p gwIssue = true) (h4 : p hsIssue = true) (h5 : p noItemsIssue = true) :
    (run_rules inv pack bl).all p = true := by
  rcases hq1 : inv.cargo.total_quantity with _ | a <;>
  rcases hq2 : pack.cargo.total_quantity with _ | b <;>
  rcases hg1 : pack.cargo.total_gross_weight with _ | g1 <;>
  rcases hg2 : bl.cargo.total_gross_weight with _ | g2 <;>
  simp only [run_rules, hq1, hq2, hg1, hg2, List.all_append, List.all_nil, Bool.and_true] <;>
  split_ifs <;>
  simp [List.all_cons, h0, h1, h2, h3, h4, h5]

/-- **C2.** `run_rules` emits the `QTY_MISMATCH_INV_PACK` issue (severity
critical) exactly once iff both the invoice and packing-list
`total_quantity` are known and numerically unequal, and never otherwise;
1000 vs 950 yields exactly one such issue, 1000 vs 1000 yields none. -/
theorem qty_mismatch_rule_characterisation :
    (∀ inv pack bl : Doc,
      ((run_rules inv pack bl).countP fun i => i.code == "QTY_MISMATCH_INV_PACK") =
        (match inv.cargo.total_quantity, pack.cargo.total_quantity with
          | some invQty, some packQty => if invQty ≠ packQty then 1 else 0
          | _, _ => 0)
      ∧ ((run_rules inv pack bl).all fun i =>
          !(i.code == "QTY_MISMATCH_INV_PACK") || i.severity == .critical) = true)
    ∧ ((run_rules { doc_type := "invoice", cargo := { total_quantity := some 1000 } }
          { doc_type := "packing_list", cargo := { total_quantity := some 950 } }
          { doc_type := "bill_of_lading" }).countP
            fun i => i.code == "QTY_MISMATCH_INV_PACK") = 1
    ∧ ((run_rules { doc_type := "invoice", cargo := { total_quantity := some 1000 } }
          { doc_type := "packing_list", cargo := { total_quantity := some 1000 } }
          { doc_type := "bill_of_lading" }).countP
            fun i => i.code == "QTY_MISMATCH_INV_PACK") = 0 := by
  refine ⟨fun inv pack bl => ⟨?_, ?_⟩, ?_, ?_⟩
  · rw [countP_run_rules]
    have hcoo : ((fun i => i.code == "QTY_MISMATCH_INV_PACK") cooIssue) = false := by decide
    have hinc : ((fun i => i.code == "QTY_MISMATCH_INV_PACK") incotermIssue) = false := by
      decide
    have hqty : ((fun i => i.code == "QTY_MISMATCH_INV_PACK") qtyIssue) = true := by decide
    have hgw : ((fun i => i.code == "QTY_MISMATCH_INV_PACK") gwIssue) = false := by decide
    have hhs : ((fun i => i.code == "QTY_MISMATCH_INV_PACK") hsIssue) = false := by decide
    have hni : ((fun i => i.code == "QTY_MISMATCH_INV_PACK") noItemsIssue) = false := by
      decide
    rcases inv.cargo.total_quantity with _ | a <;>
    rcases pack.cargo.total_quantity with _ | b <;>
    rcases pack.cargo.total_gross_weight with _ | g1 <;>
    rcases bl.cargo.total_gross_weight with _ | g2 <;>
    simp [hcoo, hinc, hqty, hgw, hhs, hni]
  · exact all_run_rules _ inv pack bl (by decide) (by decide) (by decide) (by decide)
      (by decide) (by decide)
  · rw [countP_run_rules]; decide
  · rw [countP_run_rules]; decide

/-- **C3.** `run_rules` emits the `GW_MISMATCH_PACK_BL` issue (severity
critical) exactly once iff both the packing-list and bill-of-lading
`total_gross_weight` are known and `|a−b| / max(|a|,|b|,1e-9) × 100 > 2`,
and never otherwise; 1000 vs 1015 does not fire, 1000 vs 1030 fires. -/
theorem gw_mismatch_rule_characterisation :
    (∀ inv pack bl : Doc,
      ((run_rules inv pack bl).countP fun i => i.code == "GW_MISMATCH_PACK_BL") =
        (match pack.cargo.total_gross_weight, bl.cargo.total_gross_weight with
          | some packGw, some blGw => if pct_diff packGw blGw > 2 then 1 else 0
          | _, _ => 0)
      ∧ ((run_rules inv pack bl).all fun i =>
          !(i.code == "GW_MISMATCH_PACK_BL") || i.severity == .critical) = true)
    ∧ ((run_rules { doc_type := "invoice" }
          { doc_type := "packing_list", cargo := { total_gross_weight := some 1000 } }
          { doc_type := "bill_of_lading",
            cargo := { total_gross_weight := some 1015 } }).countP
            fun i => i.code == "GW_MISMATCH_PACK_BL") = 0
    ∧ ((run_rules { doc_type := "invoice" }
          { doc_type := "packing_list", cargo := { total_gross_weight := some 1000 } }
          { doc_type := "bill_of_lading",
            cargo := { total_gross_weight := some 1030 } }).countP
            fun i => i.code == "GW_MISMATCH_PACK_BL") = 1 := by
  have hcoo : ((fun i => i.code == "GW_MISMATCH_PACK_BL") cooIssue) = false := by decide
  have hinc : ((fun i => i.code == "GW_MISMATCH_PACK_BL") incotermIssue) = false := by decide
  have hqty : ((fun i => i.code == "GW_MISMATCH_PACK_BL") qtyIssue) = false := by decide
  have hgw : ((fun i => i.code == "GW_MISMATCH_PACK_BL") gwIssue) = true := by decide
  have hhs : ((fun i => i.code == "GW_MISMATCH_PACK_BL") hsIssue) = false := by decide
  have hni : ((fun i => i.code == "GW_MISMATCH_PACK_BL") noItemsIssue) = false := by decide
  refine ⟨fun inv pack bl => ⟨?_, ?_⟩, ?_, ?_⟩
  · rw [countP_run_rules]
    rcases inv.cargo.total_quantity with _ | a <;>
    rcases pack.cargo.total_quantity with _ | b <;>
    rcases pack.cargo.total_gross_weight with _ | g1 <;>
    rcases bl.cargo.total_gross_weight with _ | g2 <;>
    simp [hcoo, hinc, hqty, hgw, hhs, hni]
  · exact all_run_rules _ inv pack bl (by decide) (by decide) (by decide) (by decide)
      (by decide) (by decide)
  · rw [countP_run_rules]
    simp only [hcoo, hinc, hqty, hgw, hhs, hni]
    norm_num [truthy, pct_diff, max_def]
  · rw [countP_run_rules]
    simp only [hcoo, hinc, hqty, hgw, hhs, hni]
    norm_num [truthy, pct_diff, max_def]

/-- **C4 counterexample.** The code's HS validator also strips surrounding
whitespace before checking, so the claimed characterisation (period
stripping only) disagrees with it on `" 761699"`. -/
theorem hs_valid_claim_counterexample :
    hs_valid (some " 761699") = true ∧ hsValidClaimed (some " 761699") = false := by
  exact ⟨by decide, by decide⟩

/-- **C4 (amended).** The HS-code validity predicate holds iff, after
stripping leading/trailing whitespace and then periods, the value is 6–10
decimal digits; the empty string and null are invalid; `"761699"` and
`"76.16.99"` are valid, `"ABC123"` is not. -/
theorem hs_valid_amended_characterisation :
    (∀ hs : Option String, hs_valid hs = hsValidAmended hs)
    ∧ hs_valid none = false
    ∧ hs_valid (some "") = false
    ∧ hs_valid (some "761699") = true
    ∧ hs_valid (some "76.16.99") = true
    ∧ hs_valid (some "ABC123") = false := by
  refine ⟨?_, by decide, by decide, by decide, by decide, by decide⟩
  rintro (_ | s)
  · rfl
  · by_cases h : s = ""
    · subst h; decide
    · simp only [hs_valid, hsValidAmended, if_neg h]




/-- **C5 counterexample.** -/
theorem acquire_method_tag_counterexample :
    (get_document_text "hello" false none).2 = "pdf_text"
    ∧ (["native", "ocr", "empty"].contains (get_document_text "hello" false none).2)
        = false := by
  exact ⟨by decide, by decide⟩

/-- **C5 (amended).** -/
theorem acquire_method_tag_characterisation :
    ∀ (pdfText : String) (ocrAvailable : Bool) (ocrText : Option String),
      ((get_document_text pdfText ocrAvailable ocrText).2 = "pdf_text"
        ∨ (get_document_text pdfText ocrAvailable ocrText).2 = "ocr"
        ∨ (get_document_text pdfText ocrAvailable ocrText).2 = "empty")
      ∧ ((get_document_text pdfText ocrAvailable ocrText).2 = "empty"
          ↔ (get_document_text pdfText ocrAvailable ocrText).1 = "") := by
  intro p a o
  simp only [get_document_text]
  by_cases hc : (normalize_text p).length < 350 ∧ a = true
  case pos =>
    rw [if_pos hc]
    cases o with
    | some o1 =>
        dsimp only
        by_cases hl : (normalize_text o1).length > (normalize_text p).length
        · rw [if_pos hl]
          refine ⟨Or.inr (Or.inl rfl), ⟨fun h => ?_, fun h => ?_⟩⟩
          · exact absurd h (by simp)
          · have h2 : normalize_text o1 = "" := h
            rw [h2] at hl
            simp at hl
        · rw [if_neg hl]
          by_cases ht : normalize_text p ≠ ""
          · rw [if_pos ht]
            exact ⟨Or.inl rfl, ⟨fun h => absurd h (by simp), fun h => absurd h ht⟩⟩
          · rw [if_neg ht]
            exact ⟨Or.inr (Or.inr rfl), ⟨fun _ => rfl, fun _ => rfl⟩⟩
    | none =>
        dsimp only
        by_cases ht : normalize_text p ≠ ""
        · rw [if_pos ht]
          exact ⟨Or.inl rfl, ⟨fun h => absurd h (by simp), fun h => absurd h ht⟩⟩
        · rw [if_neg ht]
          exact ⟨Or.inr (Or.inr rfl), ⟨fun _ => rfl, fun _ => rfl⟩⟩
  case neg =>
    rw [if_neg hc]
    by_cases ht : normalize_text p ≠ ""
    · rw [if_pos ht]
      exact ⟨Or.inl rfl, ⟨fun h => absurd h (by simp), fun h => absurd h ht⟩⟩
    · rw [if_neg ht]
      exact ⟨Or.inr (Or.inr rfl), ⟨fun _ => rfl, fun _ => rfl⟩⟩


/-- **C6 counterexample.** The report route is the hardcoded IN→AE pair,
not a caller-supplied one such as US→GB. -/
theorem route_not_caller_supplied_counterexample :
    (analyze_documents noMatchOracle "" "" "").route = ("IN", "AE")
    ∧ decide ((analyze_documents noMatchOracle "" "" "").route = ("US", "GB"))
        = false := by
  exact ⟨rfl, by rfl⟩

/-- **C6 (amended).** -/
theorem route_is_fixed_constant :
    ∀ (ora : SearchOracle) (invoiceText packingText blText : String),
      (analyze_documents ora invoiceText packingText blText).route = ("IN", "AE") :=
  fun _ _ _ _ => rfl

theorem guessIncotermAux_eq_find (text : String) (l : List String) :
    guessIncotermAux text l = l.find? fun t => containsWord t text := by
  induction l with
  | nil => rfl
  | cons t rest ih =>
      cases h : containsWord t text <;>
      simp [guessIncotermAux, List.find?, h, ih]

/-- **C7 counterexample.** `FAS` belongs to the eleven standard incoterms
and occurs standalone, yet the scanner returns unknown. -/
theorem incoterm_scan_counterexample :
    guess_incoterm "FAS" = none
    ∧ (elevenStandardIncoterms.contains "FAS") = true
    ∧ (elevenStandardIncoterms.any fun t => containsWord t "FAS") = true := by
  exact ⟨by decide, by decide, by decide⟩

/-- **C7 (amended).** -/
theorem incoterm_scan_ten_codes :
    (∀ text : String, guess_incoterm text = incos.find? fun t => containsWord t text)
    ∧ incos.length = 10
    ∧ (incos.contains "FAS") = false
    ∧ (∀ (ora : SearchOracle) (text : String),
        (extract_fields ora "invoice" text).commercial_terms.incoterm =
          guess_incoterm text)
    ∧ guess_incoterm "Delivery terms FOB Mumbai" = some "FOB"
    ∧ guess_incoterm "no trade terms stated" = none := by
  have hinv : pyLower "invoice" = "invoice" := by decide
  refine ⟨fun text => guessIncotermAux_eq_find text incos, by decide, by decide,
    fun ora text => ?_, by decide, by decide⟩
  simp [extract_fields, hinv]

/-- **C8.** -/
theorem items_always_empty_and_no_items_flagged :
    (∀ (ora : SearchOracle) (dt text : String),
      (extract_fields ora dt text).cargo.items = [])
    ∧ (∀ inv pack bl : Doc,
        ((run_rules inv pack bl).countP fun i =>
            i.code == "NO_ITEMS_EXTRACTED" && i.severity == Severity.high) =
          if inv.cargo.items = [] then 1 else 0)
    ∧ (∀ (ora : SearchOracle) (t1 t2 t3 : String),
        ((run_rules (extract_fields ora "invoice" t1)
            (extract_fields ora "packing_list" t2)
            (extract_fields ora "bill_of_lading" t3)).countP fun i =>
              i.code == "NO_ITEMS_EXTRACTED" && i.severity == Severity.high) = 1) := by
  have hitems : ∀ (ora : SearchOracle) (dt text : String),
      (extract_fields ora dt text).cargo.items = [] := by
    intro ora dt text
    simp only [extract_fields]
    split_ifs <;> rfl
  have hgen : ∀ inv pack bl : Doc,
      ((run_rules inv pack bl).countP fun i =>
          i.code == "NO_ITEMS_EXTRACTED" && i.severity == Severity.high) =
        if inv.cargo.items = [] then 1 else 0 := by
    intro inv pack bl
    rw [countP_run_rules]
    have h0 : ((fun i => i.code == "NO_ITEMS_EXTRACTED" && i.severity == Severity.high)
        cooIssue) = false := by decide
    have h1 : ((fun i => i.code == "NO_ITEMS_EXTRACTED" && i.severity == Severity.high)
        incotermIssue) = false := by decide
    have h2 : ((fun i => i.code == "NO_ITEMS_EXTRACTED" && i.severity == Severity.high)
        qtyIssue) = false := by decide
    have h3 : ((fun i => i.code == "NO_ITEMS_EXTRACTED" && i.severity == Severity.high)
        gwIssue) = false := by decide
    have h4 : ((fun i => i.code == "NO_ITEMS_EXTRACTED" && i.severity == Severity.high)
        hsIssue) = false := by decide
    have h5 : ((fun i => i.code == "NO_ITEMS_EXTRACTED" && i.severity == Severity.high)
        noItemsIssue) = true := by decide
    rcases inv.cargo.total_quantity with _ | a <;>
    rcases pack.cargo.total_quantity with _ | b <;>
    rcases pack.cargo.total_gross_weight with _ | g1 <;>
    rcases bl.cargo.total_gross_weight with _ | g2 <;>
    by_cases hi : inv.cargo.items = [] <;>
    simp [h0, h1, h2, h3, h4, h5, hi]
  refine ⟨hitems, hgen, fun ora t1 t2 t3 => ?_⟩
  rw [hgen, if_pos (hitems ora "invoice" t1)]

/-- **C9.** -/
theorem coo_fields_never_extracted_always_flagged :
    (∀ (ora : SearchOracle) (text : String),
      (extract_fields ora "invoice" text).commercial_terms.country_of_origin = none
      ∧ (extract_fields ora "invoice" text).commercial_terms.coo_mention = none)
    ∧ (∀ inv pack bl : Doc,
        ((run_rules inv pack bl).countP fun i =>
            i.code == "COO_MISSING" && i.severity == Severity.critical) =
          if !truthy inv.commercial_terms.country_of_origin
              && !truthy inv.commercial_terms.coo_mention then 1 else 0)
    ∧ (∀ (ora : SearchOracle) (t1 t2 t3 : String),
        ((run_rules (extract_fields ora "invoice" t1)
            (extract_fields ora "packing_list" t2)
            (extract_fields ora "bill_of_lading" t3)).countP fun i =>
              i.code == "COO_MISSING" && i.severity == Severity.critical) = 1) := by
  have hinv : pyLower "invoice" = "invoice" := by decide
  have hfields : ∀ (ora : SearchOracle) (text : String),
      (extract_fields ora "invoice" text).commercial_terms.country_of_origin = none
      ∧ (extract_fields ora "invoice" text).commercial_terms.coo_mention = none := by
    intro ora text
    constructor <;> simp [extract_fields, hinv]
  have hgen : ∀ inv pack bl : Doc,
      ((run_rules inv pack bl).countP fun i =>
          i.code == "COO_MISSING" && i.severity == Severity.critical) =
        if !truthy inv.commercial_terms.country_of_origin
            && !truthy inv.commercial_terms.coo_mention then 1 else 0 := by
    intro inv pack bl
    rw [countP_run_rules]
    have h0 : ((fun i => i.code == "COO_MISSING" && i.severity == Severity.critical)
        cooIssue) = true := by decide
    have h1 : ((fun i => i.code == "COO_MISSING" && i.severity == Severity.critical)
        incotermIssue) = false := by decide
    have h2 : ((fun i => i.code == "COO_MISSING" && i.severity == Severity.critical)
        qtyIssue) = false := by decide
    have h3 : ((fun i => i.code == "COO_MISSING" && i.severity == Severity.critical)
        gwIssue) = false := by decide
    have h4 : ((fun i => i.code == "COO_MISSING" && i.severity == Severity.critical)
        hsIssue) = false := by decide
    have h5 : ((fun i => i.code == "COO_MISSING" && i.severity == Severity.critical)
        noItemsIssue) = false := by decide
    rcases inv.cargo.total_quantity with _ | a <;>
    rcases pack.cargo.total_quantity with _ | b <;>
    rcases pack.cargo.total_gross_weight with _ | g1 <;>
    rcases bl.cargo.total_gross_weight with _ | g2 <;>
    simp [h0, h1, h2, h3, h4, h5]
  refine ⟨hfields, hgen, fun ora t1 t2 t3 => ?_⟩
  rw [hgen]
  obtain ⟨ha, hb⟩ := hfields ora t1
  rw [ha, hb]
  rfl

/-- **C10.** -/
theorem extract_fields_unknown_doc_type (ora : SearchOracle) (dt text : String)
    (h1 : pyLower dt ≠ "invoice") (h2 : pyLower dt ≠ "packing_list") :
    (extract_fields ora dt text).doc_type = "bill_of_lading" := by
  simp only [extract_fields, if_neg h1, if_neg h2]

/-- **C10 witness.** -/
theorem extract_fields_unknown_doc_type_witness :
    pyLower "Certificate" ≠ "invoice" ∧ pyLower "Certificate" ≠ "packing_list"
    ∧ (extract_fields noMatchOracle "Certificate" "").doc_type = "bill_of_lading" :=
  ⟨by decide, by decide,
    extract_fields_unknown_doc_type noMatchOracle "Certificate" "" (by decide) (by decide)⟩

end TradeMVP
